import Mathlib

/-!
Verification of the TradingSystem decision pipeline.

This file gives a shallow embedding, in Lean 4, of the parts of the
TradingSystem repository that its specification talks about, and proves or
refutes the specification's testable properties against that embedding.

Modelling conventions, used throughout:

* Python strings are modelled as `List Char`; `str.strip` / `str.isdigit` /
  `str.startswith` are re-implemented below on `List Char` (for `isdigit`
  only ASCII digits matter for the tickers in play).
* Python floats are modelled as exact rationals (`ℚ`).  None of the
  properties below depends on IEEE rounding; constants such as `0.5`,
  `0.98` are written as the rationals `1/2`, `98/100`.
* Python `None` / optional arguments become `Option`; a dict that is either
  absent or carries its documented fields becomes `Option` of a structure
  (an *empty* dict is falsy in Python exactly like `None`, which the
  `Option` model also captures).
* Human-readable reason strings are modelled by an inductive type with one
  constructor per distinct reason produced by the source; the exact message
  text (Chinese, with interpolated amounts) is not modelled.
* Wall-clock dates are opaque day identifiers (`Nat`); `date.today()`
  becomes an explicit `today` argument.
* I/O (CSV files, pandas, network adapters) is modelled by explicit state:
  the cache directory becomes a map from file names to stored series, a
  provider adapter becomes an optional fetch function.
-/

/- ================================================================
   Python string helpers (`str.strip`, `str.isdigit`, `str.startswith`)
   ================================================================ -/

/-- Whitespace characters removed by Python's `str.strip()`. -/
def isPySpace (c : Char) : Bool :=
  c = ' ' || c = '\t' || c = '\n' || c = '\x0d' || c = '\x0b' || c = '\x0c'

/-- Python `str.lstrip()` on a list of characters. -/
def lstripChars (s : List Char) : List Char := s.dropWhile isPySpace

/-- Python `str.rstrip()` on a list of characters. -/
def rstripChars (s : List Char) : List Char := (s.reverse.dropWhile isPySpace).reverse

/-- Python `str.strip()` on a list of characters. -/
def stripChars (s : List Char) : List Char := rstripChars (lstripChars s)

/-- Python `str.isdigit()` restricted to ASCII: nonempty and all digits. -/
def pyIsDigit (s : List Char) : Bool := !s.isEmpty && s.all Char.isDigit

/-- Python `code.startswith('HK.')`. -/
def startsWithHKDot (s : List Char) : Bool := s.take 3 = ['H', 'K', '.']

/-- Decimal digit values of `n`, most significant first (fuel-based so that
it reduces in the kernel). -/
def natDigitsAux : Nat → Nat → List Nat
  | 0, _ => []
  | fuel + 1, m => if m < 10 then [m] else natDigitsAux fuel (m / 10) ++ [m % 10]

/-- Decimal digit values of `n`, most significant first. -/
def natDigits (n : Nat) : List Nat := natDigitsAux (n + 1) n

/-- The ASCII digit character for a digit value. -/
def digitChar (d : Nat) : Char := Char.ofNat (48 + d)

/-- Python `f"{n:05d}"` for a natural number: the decimal form of `n`
left-padded with zeros to at least five characters. -/
def padTo5 (n : Nat) : List Char :=
  List.replicate (5 - (natDigits n).length) '0' ++ (natDigits n).map digitChar

/-- Python `int(code)` on a string of ASCII digits. -/
def parseNat (s : List Char) : Nat := s.foldl (fun a c => 10 * a + (c.toNat - 48)) 0

/- ================================================================
   Market Classifier  (config/settings.py, `get_market_type`)
   ================================================================ -/

/-- The market identifiers returned by `get_market_type` ('US', 'HK', 'A'). -/
inductive Market where
  | US
  | HK
  | A
deriving DecidableEq, Repr

/-- Embedding of `config.settings.get_market_type`: explicit `HK.` prefix
first, then pure 4-5 digit codes as HK, 6-digit codes as A-shares,
everything else as US. -/
def get_market_type (stock_code : List Char) : Market :=
  let code := stripChars stock_code
  if startsWithHKDot code then Market.HK
  else if pyIsDigit code && decide (4 ≤ code.length) && decide (code.length ≤ 5) then Market.HK
  else if pyIsDigit code && decide (code.length = 6) then Market.A
  else Market.US

/-- Embedding of the ticker canonicalisation performed at the top of
`DataManager.get_kline_data` (core/data_manager.py): a stripped bare 4-5
digit code becomes `HK.` followed by the code zero-padded to five digits;
every other ticker is passed through stripped. -/
def formatStockCode (stock_code : List Char) : List Char :=
  let original_code := stripChars stock_code
  if pyIsDigit original_code && decide (4 ≤ original_code.length)
      && decide (original_code.length ≤ 5) then
    ['H', 'K', '.'] ++ padTo5 (parseNat original_code)
  else
    original_code

/- ================================================================
   Price Cache  (data/data_cache.py, `DataCache`)
   ================================================================ -/

/-- One OHLCV row.  `open` is a Lean keyword, so that column is named
`open_v` here; all numeric columns are rationals and the date column is the
string stored in the CSV. -/
structure PriceBar where
  date : List Char
  open_v : ℚ
  high : ℚ
  low : ℚ
  close : ℚ
  volume : ℚ
deriving DecidableEq, Repr

/-- A price table (pandas DataFrame with the six required columns). -/
def PriceSeries : Type := List PriceBar

instance : DecidableEq PriceSeries := inferInstanceAs (DecidableEq (List PriceBar))

/-- The cache directory: a map from CSV file names to the stored series.
`none` means no file of that name exists. -/
def CacheState : Type := List Char → Option PriceSeries

/-- A cache directory with no files. -/
def emptyCache : CacheState := fun _ => none

namespace DataCache

/-- Embedding of `DataCache.get_cache_path`: dots in the ticker are replaced
by underscores and the file name is `{code}_{start}_{end}.csv`. -/
def get_cache_path (stock_code start_date end_date : List Char) : List Char :=
  (stock_code.map (fun c => if c = '.' then '_' else c))
    ++ '_' :: start_date ++ '_' :: end_date ++ ['.', 'c', 's', 'v']

/-- Embedding of `DataCache.save`: an empty frame is not cached; otherwise
the CSV file for exactly this `(ticker, start, end)` triple is (over)written.
(The typed `PriceSeries` always has the `date` column, so the source's
missing-column early return cannot fire; the metadata side table only feeds
log output and is not modelled.) -/
def save (st : CacheState) (stock_code start_date end_date : List Char)
    (df : PriceSeries) : CacheState :=
  if df.length = 0 then st
  else fun path =>
    if path = get_cache_path stock_code start_date end_date then some df else st path

/-- Embedding of `DataCache.load`: a hit requires the CSV file of exactly
this `(ticker, start, end)` triple to exist; its contents are returned
unchanged.  (The required-column check always passes on the typed
`PriceSeries`, and the corrupted-file branch has no counterpart because the
model's files are well-formed by construction.) -/
def load (st : CacheState) (stock_code start_date end_date : List Char) :
    Option PriceSeries :=
  st (get_cache_path stock_code start_date end_date)

end DataCache

/- ================================================================
   Strategy Engine: signal values shared by the strategies
   ================================================================ -/

/-- The `type` field of a signal dict: 'BUY', 'SELL' or 'HOLD'. -/
inductive SignalType where
  | BUY
  | SELL
  | HOLD
deriving DecidableEq, Repr

/-- The signal dict a strategy's `analyze` returns (the human-readable
`reason` text is not modelled; the numeric `indicators` map is flattened
into named fields per strategy). -/
structure StrategySignal where
  type : SignalType
  current_price : ℚ
  suggest_price_min : ℚ
  suggest_price_max : ℚ
  indicators : List (List Char × ℚ)
deriving DecidableEq, Repr

/- ================================================================
   Trend-Regression strategy  (strategies/tsf_lsma_strategy.py)
   ================================================================ -/

/-- Parameters of `TSFLSMAStrategy`, with the defaults used by
`self.params.get(...)` in `analyze` (`buy_threshold` / `sell_threshold`
are the absolute thresholds read when `use_percent` is false). -/
structure TSFParams where
  tsf_period : Nat := 9
  lsma_period : Nat := 20
  buy_threshold_pct : ℚ := 1/2
  sell_threshold_pct : ℚ := 1/2
  use_percent : Bool := true
  buy_threshold : ℚ := 1/2
  sell_threshold : ℚ := 1/2
deriving DecidableEq, Repr

/-- Degree-1 `np.polyfit` over `x = 0, 1, ..., len(data)-1`:
`(slope, intercept)` of the least-squares line.  (On a window of fewer than
two points the normal-equation denominator is zero and `np.polyfit` would
fail; Lean's division by zero yields `0` instead, a case no strategy
parameters in the claims reach.) -/
def linfit (data : List ℚ) : ℚ × ℚ :=
  let m : ℚ := data.length
  let xs := List.range data.length
  let sx : ℚ := (xs.map (fun i => (i : ℚ))).sum
  let sxx : ℚ := (xs.map (fun i => (i : ℚ) * (i : ℚ))).sum
  let sy : ℚ := data.sum
  let sxy : ℚ := (List.zipWith (fun i d => (i : ℚ) * d) xs data).sum
  let slope := (m * sxy - sx * sy) / (m * sxx - sx * sx)
  let intercept := (sy - slope * sx) / m
  (slope, intercept)

/-- The TSF value at bar `i`: fit the last `tsf_period` closes and
extrapolate the line to `x = tsf_period` (one step past the window). -/
def tsfAt (closes : List ℚ) (tsf_period : Nat) (i : Nat) : ℚ :=
  let data := (closes.drop (i + 1 - tsf_period)).take tsf_period
  let c := linfit data
  c.1 * tsf_period + c.2

/-- The LSMA value at bar `i`: fit the last `lsma_period` closes and
evaluate the line at `x = lsma_period - 1` (the window's last point). -/
def lsmaAt (closes : List ℚ) (lsma_period : Nat) (i : Nat) : ℚ :=
  let data := (closes.drop (i + 1 - lsma_period)).take lsma_period
  let c := linfit data
  c.1 * ((lsma_period : ℚ) - 1) + c.2

namespace TSFLSMAStrategy

/-- Embedding of `TSFLSMAStrategy.analyze` on the close column.  `none`
models both the too-few-bars early return and the NaN early return (a NaN
TSF/LSMA is exactly an unfilled window, modelled as `none` entries of the
indicator lists). -/
def analyze (p : TSFParams) (closes : List ℚ) : Option StrategySignal :=
  if closes.length < max p.tsf_period p.lsma_period then none
  else
    let tsf_values := (List.range closes.length).map (fun i =>
      if i < p.tsf_period - 1 then none else some (tsfAt closes p.tsf_period i))
    let lsma_values := (List.range closes.length).map (fun i =>
      if i < p.lsma_period - 1 then none else some (lsmaAt closes p.lsma_period i))
    match tsf_values.getLast?, lsma_values.getLast?, closes.getLast? with
    | some (some tsf), some (some lsma), some current_price =>
      let diff := tsf - lsma
      let signal_type :=
        if p.use_percent then
          let bt := lsma * (p.buy_threshold_pct / 100)
          let st := lsma * (p.sell_threshold_pct / 100)
          if diff > bt then SignalType.BUY
          else if diff < -st then SignalType.SELL
          else SignalType.HOLD
        else
          if diff > p.buy_threshold then SignalType.BUY
          else if diff < -p.sell_threshold then SignalType.SELL
          else SignalType.HOLD
      some { type := signal_type
             current_price := current_price
             suggest_price_min := current_price * (98/100)
             suggest_price_max := current_price * (102/100)
             indicators := [(['t','s','f'], tsf), (['l','s','m','a'], lsma),
                            (['d','i','f','f'], diff)] }
    | _, _, _ => none

end TSFLSMAStrategy

/- ================================================================
   Oscillator strategy  (strategies/rsi_strategy.py)
   ================================================================ -/

/-- Parameters of `RSIStrategy` with the `get` defaults of `analyze`. -/
structure RSIParams where
  period : Nat := 14
  overbought : ℚ := 70
  oversold : ℚ := 30
deriving DecidableEq, Repr

/-- The per-bar gains used by `RSIStrategy._rsi`: `delta.where(delta > 0, 0)`.
`delta = data.diff()` is NaN at index 0, and pandas `where` sends that NaN
to the replacement `0`, so the first entry is `0`. -/
def rsiGains (closes : List ℚ) : List ℚ :=
  match closes with
  | [] => []
  | _ :: rest => 0 :: List.zipWith (fun b a => if b - a > 0 then b - a else 0) rest closes

/-- The per-bar losses used by `RSIStrategy._rsi`: `-delta.where(delta < 0, 0)`,
with the index-0 NaN sent to `0` as for the gains. -/
def rsiLosses (closes : List ℚ) : List ℚ :=
  match closes with
  | [] => []
  | _ :: rest => 0 :: List.zipWith (fun b a => if b - a < 0 then -(b - a) else 0) rest closes

/-- The last value of `rolling(window=period).mean()` over `xs` (defined when
the list has at least `period` entries, which the caller's length guard
ensures; the window mean is the sum of the last `period` entries over
`period`). -/
def rollingMeanLast (period : Nat) (xs : List ℚ) : ℚ :=
  ((xs.drop (xs.length - period)).sum) / period

namespace RSIStrategy

/-- The last RSI value of `RSIStrategy._rsi`, as pandas arithmetic produces
it: with `rs = gain/loss`, a zero average loss gives `rs = inf` (RSI `100`)
when the average gain is positive and `rs = NaN` (modelled `none`) when both
averages are zero. -/
def rsiLast (period : Nat) (closes : List ℚ) : Option ℚ :=
  let avg_gain := rollingMeanLast period (rsiGains closes)
  let avg_loss := rollingMeanLast period (rsiLosses closes)
  if avg_loss = 0 then
    if avg_gain = 0 then none else some 100
  else
    some (100 - 100 / (1 + avg_gain / avg_loss))

/-- Embedding of `RSIStrategy.analyze` on the close column: below
`period + 1` bars it returns nothing; a NaN RSI (flat window) also returns
nothing; otherwise BUY below the oversold level, SELL above the overbought
level, else HOLD. -/
def analyze (p : RSIParams) (closes : List ℚ) : Option StrategySignal :=
  if closes.length < p.period + 1 then none
  else
    match rsiLast p.period closes, closes.getLast? with
    | some rsi_value, some current_price =>
      let signal_type :=
        if rsi_value < p.oversold then SignalType.BUY
        else if rsi_value > p.overbought then SignalType.SELL
        else SignalType.HOLD
      some { type := signal_type
             current_price := current_price
             suggest_price_min := current_price * (98/100)
             suggest_price_max := current_price * (102/100)
             indicators := [(['r','s','i'], rsi_value)] }
    | _, _ => none

end RSIStrategy

/- ================================================================
   Convergence/Divergence strategy  (strategies/macd_strategy.py)
   ================================================================ -/

/-- Parameters of `MACDStrategy` with the `get` defaults of `analyze`. -/
structure MACDParams where
  fast_period : Nat := 12
  slow_period : Nat := 26
  signal_period : Nat := 9
  threshold : ℚ := 0
deriving DecidableEq, Repr

/-- Tail recursion of `ewm(span, adjust=False).mean()`: each output is
`alpha * x + (1 - alpha) * previous`. -/
def ewmAux (alpha : ℚ) (prev : ℚ) : List ℚ → List ℚ
  | [] => []
  | x :: xs =>
    let y := alpha * x + (1 - alpha) * prev
    y :: ewmAux alpha y xs

/-- Embedding of `MACDStrategy._ema`: pandas `ewm(span=period, adjust=False)`
with smoothing factor `alpha = 2 / (period + 1)`; the first output equals the
first input. -/
def ema (period : Nat) (xs : List ℚ) : List ℚ :=
  match xs with
  | [] => []
  | x :: rest => x :: ewmAux (2 / ((period : ℚ) + 1)) x rest

namespace MACDStrategy

/-- Embedding of `MACDStrategy.analyze` on the close column: below
`slow_period + signal_period` bars it returns nothing; otherwise a BUY needs
the MACD line above the signal line with the previous histogram value `≤ 0`
and the current one above the threshold (an upward crossing), symmetrically
for SELL, else HOLD.  (`ewm(adjust=False)` never produces NaN from finite
input, so the source's NaN guard cannot fire here.) -/
def analyze (p : MACDParams) (closes : List ℚ) : Option StrategySignal :=
  if closes.length < p.slow_period + p.signal_period then none
  else
    let ema_fast := ema p.fast_period closes
    let ema_slow := ema p.slow_period closes
    let macd_line := List.zipWith (fun a b => a - b) ema_fast ema_slow
    let signal_line := ema p.signal_period macd_line
    let histogram := List.zipWith (fun a b => a - b) macd_line signal_line
    match macd_line.getLast?, signal_line.getLast?, closes.getLast? with
    | some macd, some signal, some current_price =>
      let hist := (histogram.getLast?).getD 0
      let prev_histogram :=
        if closes.length > 1 then (histogram.get? (closes.length - 2)).getD 0 else 0
      let signal_type :=
        if macd > signal && prev_histogram ≤ 0 && hist > p.threshold then SignalType.BUY
        else if macd < signal && prev_histogram ≥ 0 && hist < -p.threshold then
          SignalType.SELL
        else SignalType.HOLD
      some { type := signal_type
             current_price := current_price
             suggest_price_min := current_price * (98/100)
             suggest_price_max := current_price * (102/100)
             indicators := [(['m','a','c','d'], macd), (['s','i','g'], signal),
                            (['h','i','s','t'], hist)] }
    | _, _, _ => none

end MACDStrategy

/- ================================================================
   Position Sizer  (utils/kelly_calculator.py, `KellyCalculator`)
   ================================================================ -/

/-- `np.clip(x, lo, hi)`. -/
def npClip (x lo hi : ℚ) : ℚ := min (max x lo) hi

/-- The state of a `KellyCalculator`: its rolling statistics and its
configuration, with the constructor defaults. -/
structure KellyState where
  win_rate : ℚ := 55/100
  avg_win : ℚ := 5/100
  avg_loss : ℚ := 2/100
  kelly_fraction : ℚ := 25/100
  max_position : ℚ := 1
  min_position : ℚ := 0
deriving DecidableEq, Repr

namespace KellyCalculator

/-- Embedding of `KellyCalculator._adjust_win_rate`: the signal strength
shifts the win rate by `(strength - 0.5) * 0.2` and the result is clipped
to `[0.3, 0.8]`. -/
def adjust_win_rate (k : KellyState) (signal_strength : ℚ) : ℚ :=
  npClip (k.win_rate + (signal_strength - 1/2) * (2/10)) (3/10) (8/10)

/-- Embedding of `KellyCalculator._kelly_formula`:
`f = (p*b - q)/b` with `b = avg_win / avg_loss`, returning `0` when
`avg_loss ≤ 0` and clamping a negative Kelly value to `0`. -/
def kelly_formula (win_rate avg_win avg_loss : ℚ) : ℚ :=
  if avg_loss ≤ 0 then 0
  else
    let p := win_rate
    let q := 1 - win_rate
    let b := avg_win / avg_loss
    max 0 ((p * b - q) / b)

/-- Embedding of `KellyCalculator.calculate_position`: adjust the win rate
by the signal strength (when enabled), apply the Kelly formula, scale by the
conservative Kelly fraction, and clip to `[min_position, max_position]`. -/
def calculate_position (k : KellyState) (signal_strength : ℚ)
    (adjust_for_signal : Bool) : ℚ :=
  let adjusted_win_rate :=
    if adjust_for_signal then adjust_win_rate k signal_strength else k.win_rate
  let kelly_position := kelly_formula adjusted_win_rate k.avg_win k.avg_loss
  let conservative_position := kelly_position * k.kelly_fraction
  npClip conservative_position k.min_position k.max_position

end KellyCalculator

/- ================================================================
   Risk Gate  (core/risk_manager.py, `RiskManager`)
   ================================================================ -/

/-- The direction field of an order dict. -/
inductive Direction where
  | BUY
  | SELL
deriving DecidableEq, Repr

/-- An order dict as `check_order` reads it. -/
structure Order where
  stock_code : List Char
  direction : Direction
  price : ℚ
  qty : ℚ
deriving DecidableEq, Repr

/-- The account-info dict as `check_order` reads it (a missing key reads as
the `get` default `0`; a caller passing no account at all passes `none` for
the whole record). -/
structure Account where
  cash : ℚ := 0
  avl_withdrawal_cash : ℚ := 0
  total_assets : ℚ := 0
deriving DecidableEq, Repr

/-- One entry of the positions list as `check_order` reads it:
`can_sell_qty = none` models a position dict without that key, for which the
source falls back to `qty`. -/
structure Position where
  code : List Char
  qty : ℚ := 0
  can_sell_qty : Option ℚ := none
  market_val : ℚ := 0
deriving DecidableEq, Repr

/-- One entry of the trade-history ledger (`datetime.now()` is not part of
any claim and is dropped). -/
structure TradeRecord where
  stock_code : List Char
  direction : Direction
  amount : ℚ
deriving DecidableEq, Repr

/-- The mutable state of a `RiskManager`: its parameters and its date-scoped
daily statistics, with the constructor's defaults ($50,000 / HK$400,000
per-order caps, 20 trades per day, 30% / 90% exposure caps). -/
structure RiskState where
  max_single_amount : ℚ := 50000
  max_single_amount_hk : ℚ := 400000
  max_daily_trades : Nat := 20
  max_position_ratio : ℚ := 3/10
  max_total_position : ℚ := 9/10
  stop_loss_ratio : ℚ := 5/100
  take_profit_ratio : ℚ := 10/100
  daily_trades : Nat := 0
  daily_buy_amount : ℚ := 0
  daily_sell_amount : ℚ := 0
  last_reset_date : Nat := 0
  trade_history : List TradeRecord := []
deriving DecidableEq, Repr

/-- The distinct rejection/acceptance reasons `check_order` produces, one
constructor per reason string of the source. -/
inductive RiskReason where
  | overCap
  | dailyLimit
  | insufficientFunds
  | positionRatio
  | totalPosition
  | noPosition
  | insufficientSellQty
  | pass
deriving DecidableEq, Repr

namespace RiskManager

/-- Embedding of `RiskManager._check_and_reset_daily`: on the first call of
a new calendar date the three daily counters are zeroed and the reset date
is moved forward; the trade ledger is untouched. -/
def check_and_reset_daily (st : RiskState) (today : Nat) : RiskState :=
  if today ≠ st.last_reset_date then
    { st with daily_trades := 0, daily_buy_amount := 0, daily_sell_amount := 0,
              last_reset_date := today }
  else st

/-- The available funds read by rule 3 of `check_order`: the account's
`cash`, falling back to `avl_withdrawal_cash` when `cash` is `0`. -/
def available_funds (acct : Account) : ℚ :=
  if acct.cash = 0 then acct.avl_withdrawal_cash else acct.cash

/-- Rule 3 of `check_order` (cash sufficiency): runs only for a BUY with
account info present; fails when the notional exceeds the available funds. -/
def funds_check (direction : Direction) (account_info : Option Account) (amount : ℚ) :
    Option RiskReason :=
  match direction, account_info with
  | Direction.BUY, some acct =>
    if amount > available_funds acct then some RiskReason.insufficientFunds else none
  | _, _ => none

/-- Rule 4 of `check_order` (exposure ratios): runs only for a BUY with both
account info and a positions list, and only when `total_assets > 0`; fails
when the order alone exceeds the per-ticker ratio or the portfolio plus the
order exceeds the total ratio. -/
def ratio_check (self : RiskState) (direction : Direction) (account_info : Option Account)
    (positions : Option (List Position)) (amount : ℚ) : Option RiskReason :=
  match direction, account_info, positions with
  | Direction.BUY, some acct, some poss =>
    if acct.total_assets > 0 then
      let new_position_ratio := amount / acct.total_assets
      if new_position_ratio > self.max_position_ratio then some RiskReason.positionRatio
      else
        let current_position_value := (poss.map (fun p => p.market_val)).sum
        let new_total_position := (current_position_value + amount) / acct.total_assets
        if new_total_position > self.max_total_position then some RiskReason.totalPosition
        else none
    else none
  | _, _, _ => none

/-- Rule 5 of `check_order` (sell holding): runs only for a SELL with a
positions list present; fails when no position matches the ticker or the
matching position's sellable quantity (`can_sell_qty`, falling back to
`qty`) is below the requested quantity. -/
def sell_check (direction : Direction) (positions : Option (List Position))
    (stock_code : List Char) (qty : ℚ) : Option RiskReason :=
  match direction, positions with
  | Direction.SELL, some poss =>
    match poss.find? (fun p => p.code = stock_code) with
    | none => some RiskReason.noPosition
    | some pos =>
      let available_qty := pos.can_sell_qty.getD pos.qty
      if qty > available_qty then some RiskReason.insufficientSellQty else none
  | _, _ => none

/-- Embedding of `RiskManager.check_order`.  The five rules run in source
order and the first failure short-circuits: per-order notional cap (market
chosen by the `HK.` ticker prefix), daily trade-count cap, then
`funds_check`, `ratio_check` and `sell_check` above.  The returned state is
the input state after the automatic daily reset: `check_order` performs no
other mutation. -/
def check_order (st : RiskState) (today : Nat) (order_data : Order)
    (account_info : Option Account) (positions : Option (List Position)) :
    RiskState × Bool × RiskReason :=
  let self := check_and_reset_daily st today
  let amount := order_data.price * order_data.qty
  let is_hk := startsWithHKDot order_data.stock_code
  let max_amount := if is_hk then self.max_single_amount_hk else self.max_single_amount
  if amount > max_amount then (self, false, RiskReason.overCap)
  else if self.daily_trades ≥ self.max_daily_trades then (self, false, RiskReason.dailyLimit)
  else
    match funds_check order_data.direction account_info amount with
    | some r => (self, false, r)
    | none =>
      match ratio_check self order_data.direction account_info positions amount with
      | some r => (self, false, r)
      | none =>
        match sell_check order_data.direction positions order_data.stock_code
            order_data.qty with
        | some r => (self, false, r)
        | none => (self, true, RiskReason.pass)

/-- Embedding of `RiskManager.update_daily_stats`: after the automatic daily
reset, the day's trade count goes up by one, the buy or sell amount grows by
the order's notional, and the order is appended to the trade ledger. -/
def update_daily_stats (st : RiskState) (today : Nat) (order_data : Order) : RiskState :=
  let self := check_and_reset_daily st today
  let amount := order_data.price * order_data.qty
  { self with
    daily_trades := self.daily_trades + 1
    daily_buy_amount :=
      if order_data.direction = Direction.BUY then self.daily_buy_amount + amount
      else self.daily_buy_amount
    daily_sell_amount :=
      if order_data.direction = Direction.BUY then self.daily_sell_amount
      else self.daily_sell_amount + amount
    trade_history := self.trade_history ++
      [{ stock_code := order_data.stock_code, direction := order_data.direction,
         amount := amount }] }

end RiskManager

/- ================================================================
   Data Router  (core/data_manager.py, `DataManager.get_kline_data`)
   ================================================================ -/

/-- A market-data provider adapter: given (canonical ticker, start date,
end date) it returns a price table or fails (`none` models both a raised
exception handled upstream and an explicit `None` result). -/
def Adapter : Type := List Char → List Char → List Char → Option PriceSeries

/-- The collaborators `DataManager` routes between: `none` for an adapter
models the corresponding `_init_*` failing (library missing, connection or
key unavailable), after which the source returns `None` without fetching. -/
structure DataManagerState where
  use_cache : Bool := true
  cache : CacheState := emptyCache
  futu : Option Adapter := none
  financial : Option Adapter := none
  tushare : Option Adapter := none

/-- The adapter `get_kline_data` consults for a market: Futu for HK,
FinancialDatasets for US, Tushare for A-shares. -/
def adapterFor (dm : DataManagerState) : Market → Option Adapter
  | Market.HK => dm.futu
  | Market.US => dm.financial
  | Market.A => dm.tushare

namespace DataManager

/-- Embedding of `DataManager.get_kline_data`: canonicalise the ticker,
classify its market, serve from the cache unless disabled or
`force_update`, otherwise fetch through the classified market's adapter
(returning `none` when that adapter is unavailable or its fetch fails) and
write a successful fetch back to the cache.  The result pairs the updated
collaborator state with the optional data. -/
def get_kline_data (dm : DataManagerState) (stock_code start_date end_date : List Char)
    (force_update : Bool) : DataManagerState × Option PriceSeries :=
  let code := formatStockCode stock_code
  let market := get_market_type code
  let cached :=
    if dm.use_cache && !force_update then DataCache.load dm.cache code start_date end_date
    else none
  match cached with
  | some df => (dm, some df)
  | none =>
    match adapterFor dm market with
    | none => (dm, none)
    | some fetch =>
      match fetch code start_date end_date with
      | none => (dm, none)
      | some df =>
        let dm' :=
          if dm.use_cache then
            { dm with cache := DataCache.save dm.cache code start_date end_date df }
          else dm
        (dm', some df)

end DataManager

/- ================================================================
   Scheduler  (core/scheduler.py, `TaskScheduler`)
   ================================================================ -/

/-- The kind of a scheduler task (`self.tasks[name]['type']`). -/
inductive TaskType where
  | signal
  | trade
  | custom
deriving DecidableEq, Repr

/-- One entry of `TaskScheduler.tasks` (the fields that matter to the job
closures: its kind and its `enabled` flag). -/
structure TaskInfo where
  ttype : TaskType
  enabled : Bool
deriving DecidableEq, Repr

/-- The scheduler's state: the `schedule` library's registry of job
closures (name and kind of the closure registered by
`schedule.every().day.at(t).do(job)`) and the scheduler's own `tasks`
table.  The two are updated independently, exactly as in the source. -/
structure SchedulerState where
  scheduled_jobs : List (List Char × TaskType) := []
  tasks : List (List Char × TaskInfo) := []
deriving DecidableEq, Repr

/-- What happens when the clock loop runs one registered job closure. -/
inductive JobOutcome where
  /-- The closure executed its body (fetched data, generated signals /
  traded). -/
  | ran
  /-- The closure returned immediately (`if not self.tasks[name]['enabled']:
  return`). -/
  | skipped
  /-- The closure raised `KeyError` looking up a task name no longer in
  `self.tasks`. -/
  | keyError
deriving DecidableEq, Repr

namespace TaskScheduler

/-- A fresh scheduler. -/
def init : SchedulerState := {}

/-- Insert-or-replace in the `tasks` table (`self.tasks[name] = {...}`). -/
def setTask (tasks : List (List Char × TaskInfo)) (name : List Char) (info : TaskInfo) :
    List (List Char × TaskInfo) :=
  (name, info) :: tasks.filter (fun kv => kv.1 ≠ name)

/-- Look a task up in the `tasks` table. -/
def lookupTask (st : SchedulerState) (name : List Char) : Option TaskInfo :=
  (st.tasks.find? (fun kv => kv.1 = name)).map (fun kv => kv.2)

/-- Embedding of `TaskScheduler.add_daily_signal_task`: registers the signal
job closure with the `schedule` library and records the task as enabled.
The registered closure never consults the `tasks` table's `enabled` flag. -/
def add_daily_signal_task (st : SchedulerState) (task_name : List Char) : SchedulerState :=
  { scheduled_jobs := st.scheduled_jobs ++ [(task_name, TaskType.signal)]
    tasks := setTask st.tasks task_name { ttype := TaskType.signal, enabled := true } }

/-- Embedding of `TaskScheduler.add_auto_trade_task`: registers the trade
job closure (which *does* begin by reading `self.tasks[task_name]['enabled']`)
and records the task with the given initial flag (default disabled). -/
def add_auto_trade_task (st : SchedulerState) (task_name : List Char) (enable : Bool) :
    SchedulerState :=
  { scheduled_jobs := st.scheduled_jobs ++ [(task_name, TaskType.trade)]
    tasks := setTask st.tasks task_name { ttype := TaskType.trade, enabled := enable } }

/-- Embedding of `TaskScheduler.remove_task`: deletes the entry from the
`tasks` table only; the closure registered with the `schedule` library is
never cancelled. -/
def remove_task (st : SchedulerState) (task_name : List Char) : SchedulerState :=
  if (st.tasks.find? (fun kv => kv.1 = task_name)).isSome then
    { st with tasks := st.tasks.filter (fun kv => kv.1 ≠ task_name) }
  else st

/-- Embedding of `TaskScheduler.enable_task`. -/
def enable_task (st : SchedulerState) (task_name : List Char) : SchedulerState :=
  match lookupTask st task_name with
  | some info => { st with tasks := setTask st.tasks task_name { info with enabled := true } }
  | none => st

/-- Embedding of `TaskScheduler.disable_task`: clears the `enabled` flag in
the `tasks` table (and nothing else). -/
def disable_task (st : SchedulerState) (task_name : List Char) : SchedulerState :=
  match lookupTask st task_name with
  | some info => { st with tasks := setTask st.tasks task_name { info with enabled := false } }
  | none => st

/-- What one registered job closure does when `schedule.run_pending()` fires
it against the current `tasks` table: a signal or custom closure runs its
body unconditionally; a trade closure first reads
`self.tasks[task_name]['enabled']` — raising `KeyError` if the task was
removed — and returns early when the flag is cleared. -/
def fireJob (st : SchedulerState) (job : List Char × TaskType) : JobOutcome :=
  match job.2 with
  | TaskType.signal => JobOutcome.ran
  | TaskType.custom => JobOutcome.ran
  | TaskType.trade =>
    match lookupTask st job.1 with
    | none => JobOutcome.keyError
    | some info => if info.enabled then JobOutcome.ran else JobOutcome.skipped

/-- One pass of the clock loop: every registered closure fires. -/
def run_pending (st : SchedulerState) : List JobOutcome :=
  st.scheduled_jobs.map (fireJob st)

end TaskScheduler

/- ================================================================
   Concrete inputs used by the end-to-end scenarios below
   ================================================================ -/

/-- Twenty-five ascending closes `1, 2, ..., 25`. -/
def asc25 : List ℚ := (List.range 25).map (fun i => (i : ℚ) + 1)

/-- Twenty steeply ascending closes `10, 20, ..., 200`. -/
def steep20 : List ℚ := (List.range 20).map (fun i => ((i : ℚ) + 1) * 10)

/-- The Trend-Regression parameters of end-to-end scenario 1: `S = 9`,
`L = 20`, absolute thresholds `0.5`. -/
def scenario1Params : TSFParams :=
  { tsf_period := 9, lsma_period := 20, use_percent := false,
    buy_threshold := 1/2, sell_threshold := 1/2 }

/-- A one-row price table used to exercise the cache. -/
def oneRowSeries : PriceSeries :=
  [{ date := ['2','0','2','5','-','0','1','-','2','0'],
     open_v := 100, high := 105, low := 99, close := 103, volume := 1000000 }]

/-- The date `2025-01-20` as a string. -/
def day20 : List Char := ['2','0','2','5','-','0','1','-','2','0']

/-- The date `2025-01-21` as a string. -/
def day21 : List Char := ['2','0','2','5','-','0','1','-','2','1']

/-- The date `2025-01-22` as a string. -/
def day22 : List Char := ['2','0','2','5','-','0','1','-','2','2']

/-- The ticker `TEST`. -/
def tkTEST : List Char := ['T','E','S','T']

/-- The ticker `TSLA`. -/
def tkTSLA : List Char := ['T','S','L','A']

/-- The ticker `MSFT`. -/
def tkMSFT : List Char := ['M','S','F','T']

/-- The ticker `NVDA`. -/
def tkNVDA : List Char := ['N','V','D','A']

/-- A fresh risk manager (constructor defaults, reset date day 0). -/
def freshRisk : RiskState := {}

/-- A risk manager that has already recorded its 20th trade of the day. -/
def exhaustedRisk : RiskState := { daily_trades := 20 }

/-- A US BUY order whose notional `1000 × 100 = 100000` exceeds the $50,000
US per-order cap (end-to-end scenario 2's order). -/
def overCapOrder : Order :=
  { stock_code := tkNVDA, direction := Direction.BUY, price := 1000, qty := 100 }

/-- An account whose `cash` (10) is far below `overCapOrder`'s notional. -/
def lowCashAccount : Account :=
  { cash := 10, avl_withdrawal_cash := 10, total_assets := 100000 }

/-- A small US BUY order (notional 10) well inside every cap. -/
def smallBuyOrder : Order :=
  { stock_code := tkNVDA, direction := Direction.BUY, price := 10, qty := 1 }

/-- A data-manager state with caching on, an empty cache, and no adapter
available for any market. -/
def noAdapterDM : DataManagerState := {}

/-- The scheduler after adding the daily-signal task `sig` and then
disabling it. -/
def disabledSignalSched : SchedulerState :=
  TaskScheduler.disable_task
    (TaskScheduler.add_daily_signal_task TaskScheduler.init ['s','i','g'])
    ['s','i','g']

/-- The scheduler after adding the daily-signal task `sig` and then
removing it. -/
def removedSignalSched : SchedulerState :=
  TaskScheduler.remove_task
    (TaskScheduler.add_daily_signal_task TaskScheduler.init ['s','i','g'])
    ['s','i','g']

/- ================================================================
   Helper lemmas about the Python string model
   ================================================================ -/

/-- Dropping a prefix of satisfied elements twice is the same as once. -/
theorem dropWhile_idem (p : Char → Bool) (l : List Char) :
    (l.dropWhile p).dropWhile p = l.dropWhile p := by
  induction l with
  | nil => rfl
  | cons a t ih =>
    by_cases h : p a = true
    · simpa [List.dropWhile_cons, h] using ih
    · simp [List.dropWhile_cons, h]

/-- A list none of whose elements satisfies the predicate is untouched by
`dropWhile`. -/
theorem dropWhile_eq_self_of_all {p : Char → Bool} {l : List Char}
    (h : ∀ c ∈ l, p c = false) : l.dropWhile p = l := by
  cases l with
  | nil => rfl
  | cons a t => simp [List.dropWhile_cons, h a (by simp)]

/-- `lstrip` is idempotent. -/
theorem lstrip_idem (s : List Char) : lstripChars (lstripChars s) = lstripChars s :=
  dropWhile_idem isPySpace s

/-- `rstrip` is idempotent. -/
theorem rstrip_idem (s : List Char) : rstripChars (rstripChars s) = rstripChars s := by
  unfold rstripChars
  rw [List.reverse_reverse, dropWhile_idem]

/-- `rstrip` returns a prefix of its argument. -/
theorem rstrip_isPrefix (s : List Char) : rstripChars s <+: s := by
  have h := List.dropWhile_suffix (l := s.reverse) isPySpace
  have h2 := List.reverse_prefix.2 h
  rwa [List.reverse_reverse] at h2

/-- A prefix of a left-stripped list is already left-stripped. -/
theorem lstrip_of_isPrefix {x y : List Char} (hx : lstripChars x = x) (hy : y <+: x) :
    lstripChars y = y := by
  cases y with
  | nil => rfl
  | cons a t =>
    obtain ⟨r, rfl⟩ := hy
    have ha : isPySpace a = false := by
      by_cases h : isPySpace a = true
      · exfalso
        have hdrop : lstripChars (a :: t ++ r) = (t ++ r).dropWhile isPySpace := by
          simp [lstripChars, List.dropWhile_cons, h]
        have hsuff := (List.dropWhile_suffix (l := t ++ r) isPySpace).length_le
        rw [hdrop] at hx
        have hlen : (a :: t ++ r).length ≤ (t ++ r).length := hx ▸ hsuff
        simp at hlen
      · simpa using h
    simp [lstripChars, List.dropWhile_cons, ha]

/-- Python `strip` is idempotent. -/
theorem strip_idem (s : List Char) : stripChars (stripChars s) = stripChars s := by
  unfold stripChars
  rw [lstrip_of_isPrefix (lstrip_idem s) (rstrip_isPrefix (lstripChars s)), rstrip_idem]

/-- A list with no whitespace characters is untouched by `strip`. -/
theorem strip_of_all_nonspace {l : List Char} (h : ∀ c ∈ l, isPySpace c = false) :
    stripChars l = l := by
  unfold stripChars lstripChars rstripChars
  rw [dropWhile_eq_self_of_all h,
      dropWhile_eq_self_of_all (fun c hc => h c (List.mem_reverse.1 hc)),
      List.reverse_reverse]

/-- Every digit value produced by `natDigitsAux` is below 10. -/
theorem natDigitsAux_lt (fuel : Nat) : ∀ m, ∀ d ∈ natDigitsAux fuel m, d < 10 := by
  induction fuel with
  | zero => intro m d hd; simp [natDigitsAux] at hd
  | succ f ih =>
    intro m d hd
    unfold natDigitsAux at hd
    by_cases h : m < 10
    · rw [if_pos h] at hd
      simp at hd
      omega
    · rw [if_neg h] at hd
      rcases List.mem_append.1 hd with h1 | h1
      · exact ih _ _ h1
      · simp at h1
        subst h1
        exact Nat.mod_lt _ (by omega)

/-- Digit characters are not Python whitespace. -/
theorem digitChar_not_space {d : Nat} (h : d < 10) : isPySpace (digitChar d) = false := by
  interval_cases d <;> decide

/-- No character of a zero-padded code is whitespace. -/
theorem padTo5_not_space (n : Nat) : ∀ c ∈ padTo5 n, isPySpace c = false := by
  intro c hc
  unfold padTo5 at hc
  rcases List.mem_append.1 hc with h | h
  · rw [List.eq_of_mem_replicate h]; decide
  · rcases List.mem_map.1 h with ⟨d, hd, rfl⟩
    exact digitChar_not_space (natDigitsAux_lt _ _ _ hd)

/-- A pure-digit string cannot start with `HK.`. -/
theorem hk_prefix_of_digits {code : List Char} (h : pyIsDigit code = true) :
    startsWithHKDot code = false := by
  rcases h3 : startsWithHKDot code with _ | _
  · rfl
  · exfalso
    unfold startsWithHKDot at h3
    have htake : code.take 3 = ['H', 'K', '.'] := by simpa using h3
    have hH : 'H' ∈ code := List.take_subset 3 code (htake ▸ (by simp))
    unfold pyIsDigit at h
    rw [Bool.and_eq_true] at h
    have := List.all_eq_true.1 h.2 'H' hH
    simp [Char.isDigit] at this

/-- Classification only looks at the stripped ticker. -/
theorem get_market_type_strip (t : List Char) :
    get_market_type (stripChars t) = get_market_type t := by
  unfold get_market_type
  rw [strip_idem]

/-- A canonical `HK.`-prefixed zero-padded code classifies as HK. -/
theorem get_market_type_hkform (n : Nat) :
    get_market_type (['H', 'K', '.'] ++ padTo5 n) = Market.HK := by
  have hstrip : stripChars (['H', 'K', '.'] ++ padTo5 n) = ['H', 'K', '.'] ++ padTo5 n := by
    apply strip_of_all_nonspace
    intro c hc
    rcases List.mem_append.1 hc with h | h
    · simp at h
      rcases h with rfl | rfl | rfl <;> decide
    · exact padTo5_not_space n c h
  unfold get_market_type
  rw [hstrip, if_pos (show startsWithHKDot (['H', 'K', '.'] ++ padTo5 n) = true from rfl)]

/-- A stripped pure-digit ticker of four or five characters classifies HK. -/
theorem gmt_digits45 {t : List Char} (hd : pyIsDigit (stripChars t) = true)
    (h4 : 4 ≤ (stripChars t).length) (h5 : (stripChars t).length ≤ 5) :
    get_market_type t = Market.HK := by
  unfold get_market_type
  rw [if_neg (by simp [hk_prefix_of_digits hd]), if_pos (by simp [hd, h4, h5])]

/-- A stripped pure-digit ticker of six characters classifies as A-share. -/
theorem gmt_digits6 {t : List Char} (hd : pyIsDigit (stripChars t) = true)
    (h6 : (stripChars t).length = 6) : get_market_type t = Market.A := by
  unfold get_market_type
  rw [if_neg (by simp [hk_prefix_of_digits hd]), if_neg (by simp [h6]),
      if_pos (by simp [hd, h6])]

/-- Everything else classifies US: a ticker that is not `HK.`-prefixed, not
a pure-digit string of four or five characters, and not a pure-digit string
of six characters — non-digit tickers and digit strings of any other length
alike — falls through to the US default. -/
theorem gmt_default_US {t : List Char}
    (hns : startsWithHKDot (stripChars t) = false)
    (h45 : ¬(pyIsDigit (stripChars t) = true ∧ 4 ≤ (stripChars t).length
            ∧ (stripChars t).length ≤ 5))
    (h6 : ¬(pyIsDigit (stripChars t) = true ∧ (stripChars t).length = 6)) :
    get_market_type t = Market.US := by
  have h45b : ¬((pyIsDigit (stripChars t) && decide (4 ≤ (stripChars t).length)
      && decide ((stripChars t).length ≤ 5)) = true) := by
    simp only [Bool.and_eq_true, decide_eq_true_eq]
    intro hc
    exact h45 ⟨hc.1.1, hc.1.2, hc.2⟩
  have h6b : ¬((pyIsDigit (stripChars t) && decide ((stripChars t).length = 6)) = true) := by
    simp only [Bool.and_eq_true, decide_eq_true_eq]
    intro hc
    exact h6 ⟨hc.1, hc.2⟩
  unfold get_market_type
  rw [if_neg (by simp [hns]), if_neg h45b, if_neg h6b]

/-- Canonicalisation never changes the classified market. -/
theorem gmt_formatStockCode (t : List Char) :
    get_market_type (formatStockCode t) = get_market_type t := by
  by_cases hcond : (pyIsDigit (stripChars t) && decide (4 ≤ (stripChars t).length)
      && decide ((stripChars t).length ≤ 5)) = true
  · have hfmt : formatStockCode t = ['H', 'K', '.'] ++ padTo5 (parseNat (stripChars t)) := by
      unfold formatStockCode
      rw [if_pos hcond]
    rw [hfmt, get_market_type_hkform]
    simp only [Bool.and_eq_true, decide_eq_true_eq] at hcond
    exact (gmt_digits45 hcond.1.1 hcond.1.2 hcond.2).symm
  · have hfmt : formatStockCode t = stripChars t := by
      unfold formatStockCode
      rw [if_neg hcond]
    rw [hfmt, get_market_type_strip]

/-- C3: market classification is a pure total function of the ticker string
with precedence explicit `HK.` prefix, then 4-5 digit codes (HK), then
6-digit codes (A-share), and *everything else* — non-digit tickers and
digit strings of any other length alike — classifies US; and classifying
the canonical ticker (`formatStockCode`, which left-pads a bare 4-5 digit
code to the 5-digit `HK.`-prefixed form) yields the same market as the
original. -/
theorem market_classifier_deterministic_idempotent :
    ∀ t : List Char,
      get_market_type (formatStockCode t) = get_market_type t
      ∧ (startsWithHKDot (stripChars t) = true → get_market_type t = Market.HK)
      ∧ (pyIsDigit (stripChars t) = true → 4 ≤ (stripChars t).length →
          (stripChars t).length ≤ 5 → get_market_type t = Market.HK)
      ∧ (pyIsDigit (stripChars t) = true → (stripChars t).length = 6 →
          get_market_type t = Market.A)
      ∧ (startsWithHKDot (stripChars t) = false →
          ¬(pyIsDigit (stripChars t) = true ∧ 4 ≤ (stripChars t).length
            ∧ (stripChars t).length ≤ 5) →
          ¬(pyIsDigit (stripChars t) = true ∧ (stripChars t).length = 6) →
          get_market_type t = Market.US) := by
  intro t
  refine ⟨gmt_formatStockCode t, ?_, fun hd h4 h5 => gmt_digits45 hd h4 h5,
          fun hd h6 => gmt_digits6 hd h6, fun hns h45 h6 => gmt_default_US hns h45 h6⟩
  intro h
  unfold get_market_type
  rw [if_pos h]

/- ================================================================
   C1: Price Cache round-trip
   ================================================================ -/

section ConcreteCache

attribute [local semireducible] Rat.add Rat.mul Rat.sub Rat.inv

/-- C1 counterexample: storing `TEST` for `2025-01-20 .. 2025-01-22` and
looking up the strictly narrower contained range `2025-01-21 .. 2025-01-22`
returns nothing, although the stored range fully covers the request (the
same store answers the exact-range lookup). -/
theorem cache_narrower_range_misses :
    DataCache.load (DataCache.save emptyCache tkTEST day20 day22 oneRowSeries)
        tkTEST day21 day22 = none
    ∧ DataCache.load (DataCache.save emptyCache tkTEST day20 day22 oneRowSeries)
        tkTEST day20 day22 = some oneRowSeries := by
  constructor <;> decide

end ConcreteCache

/-- C1 (amended): a store immediately followed by a lookup of the *exact
same* `(ticker, start, end)` triple returns the stored series unchanged,
and a lookup under any other cache file name — a strictly narrower
contained range included — is untouched by the store, so over an otherwise
empty cache it returns nothing: the cache is keyed by the exact range, not
by range containment. -/
theorem cache_exact_roundtrip :
    ∀ (st : CacheState) (code s e : List Char) (df : PriceSeries),
      (df ≠ ([] : PriceSeries) →
        DataCache.load (DataCache.save st code s e df) code s e = some df)
      ∧ (∀ code2 s2 e2 : List Char,
          DataCache.get_cache_path code2 s2 e2 ≠ DataCache.get_cache_path code s e →
          DataCache.load (DataCache.save st code s e df) code2 s2 e2 =
            DataCache.load st code2 s2 e2) := by
  intro st code s e df
  constructor
  · intro hdf
    unfold DataCache.load DataCache.save
    rw [if_neg (by simpa [List.length_eq_zero] using hdf)]
    simp
  · intro code2 s2 e2 hne
    unfold DataCache.load DataCache.save
    by_cases h0 : (df : List PriceBar).length = 0
    · rw [if_pos h0]
    · rw [if_neg h0]
      simp [hne]

/- ================================================================
   C2: Trend-Regression end-to-end scenario
   ================================================================ -/

section ConcreteTSF

attribute [local semireducible] Rat.add Rat.mul Rat.sub Rat.inv

set_option maxRecDepth 4000

/-- C2 counterexample: 25 ascending closes are *more* than the required
`max(9, 20) = 20` bars, so the strategy does produce a signal (a BUY), not
nothing as the claim states. -/
theorem tsf_25_ascending_bars_emit_signal :
    (TSFLSMAStrategy.analyze scenario1Params asc25).isSome = true := by decide

/-- C2 (amended): with `S = 9`, `L = 20` and absolute thresholds `0.5`, a
series of fewer than 20 bars returns nothing; the 20-bar steeply ascending
series returns a BUY signal whose current price is the last close; and the
25-bar ascending series (being at least 20 bars) likewise returns a BUY
signal whose current price is the last close, rather than nothing. -/
theorem tsf_scenario1_amended :
    (∀ closes : List ℚ, closes.length < 20 →
        TSFLSMAStrategy.analyze scenario1Params closes = none)
    ∧ (TSFLSMAStrategy.analyze scenario1Params steep20).map (fun s => s.type)
        = some SignalType.BUY
    ∧ (TSFLSMAStrategy.analyze scenario1Params steep20).map (fun s => s.current_price)
        = steep20.getLast?
    ∧ (TSFLSMAStrategy.analyze scenario1Params asc25).map (fun s => s.type)
        = some SignalType.BUY
    ∧ (TSFLSMAStrategy.analyze scenario1Params asc25).map (fun s => s.current_price)
        = asc25.getLast? := by
  refine ⟨?_, by decide, by decide, by decide, by decide⟩
  intro closes h
  have hmax : max scenario1Params.tsf_period scenario1Params.lsma_period = 20 := by decide
  unfold TSFLSMAStrategy.analyze
  rw [if_pos (by rw [hmax]; exact h)]

end ConcreteTSF

/- ================================================================
   C4: Risk Gate monotonicity
   ================================================================ -/

section ConcreteRisk

attribute [local semireducible] Rat.add Rat.mul Rat.sub Rat.inv

/-- C4 counterexample: a BUY whose account cash (10) is far below its
notional (100,000) is rejected with the *per-order-cap* reason, not the
insufficient-funds reason, because the notional also exceeds the $50,000 US
cap and that rule short-circuits first. -/
theorem risk_low_cash_rejected_with_cap_reason :
    RiskManager.check_order freshRisk 0 overCapOrder (some lowCashAccount) none
      = (freshRisk, false, RiskReason.overCap)
    ∧ lowCashAccount.cash < overCapOrder.price * overCapOrder.qty := by
  constructor <;> decide

/-- C10 counterexample: with the daily trade counter already at its cap, a
BUY well inside the per-order cap and carrying no account info is rejected
(with the daily-limit reason), so "check with no account info accepts any
BUY within the per-order cap" fails as stated. -/
theorem risk_daily_limit_rejects_despite_no_account :
    RiskManager.check_order exhaustedRisk 0 smallBuyOrder none none
      = (exhaustedRisk, false, RiskReason.dailyLimit)
    ∧ smallBuyOrder.price * smallBuyOrder.qty ≤ exhaustedRisk.max_single_amount := by
  constructor <;> decide

end ConcreteRisk

/-- C4 (amended): any order whose notional exceeds its market's per-order
cap is rejected with the cap reason, whatever else holds — so raising an
accepted order's notional above the cap flips the result to Reject; and a
BUY order that passes the earlier rules (notional within the cap, daily
trade count below its cap) and whose effective available funds — the
account's `cash`, or its `avl_withdrawal_cash` when `cash` is `0` — are
below the notional is rejected with the insufficient-funds reason. -/
theorem risk_gate_cap_and_funds_monotone :
    ∀ (st : RiskState) (today : Nat) (o : Order) (sc : List Char) (price qty : ℚ)
      (acct : Account) (a : Option Account) (p : Option (List Position)),
      (o.price * o.qty >
          (if startsWithHKDot o.stock_code then
            (RiskManager.check_and_reset_daily st today).max_single_amount_hk
          else (RiskManager.check_and_reset_daily st today).max_single_amount) →
        RiskManager.check_order st today o a p =
          (RiskManager.check_and_reset_daily st today, false, RiskReason.overCap))
      ∧ (price * qty ≤
          (if startsWithHKDot sc then
            (RiskManager.check_and_reset_daily st today).max_single_amount_hk
          else (RiskManager.check_and_reset_daily st today).max_single_amount) →
        (RiskManager.check_and_reset_daily st today).daily_trades <
          (RiskManager.check_and_reset_daily st today).max_daily_trades →
        (if acct.cash = 0 then acct.avl_withdrawal_cash else acct.cash) < price * qty →
        RiskManager.check_order st today
            { stock_code := sc, direction := Direction.BUY, price := price, qty := qty }
            (some acct) p =
          (RiskManager.check_and_reset_daily st today, false, RiskReason.insufficientFunds)) := by
  intro st today o sc price qty acct a p
  constructor
  · intro hcap
    simp only [RiskManager.check_order]
    rw [if_pos hcap]
  · intro hcap htr hfunds
    simp only [RiskManager.check_order]
    rw [if_neg (not_lt.2 hcap), if_neg (not_le.2 htr)]
    have hfc : RiskManager.funds_check Direction.BUY (some acct) (price * qty)
        = some RiskReason.insufficientFunds := by
      simp only [RiskManager.funds_check, RiskManager.available_funds]
      rw [if_pos hfunds]
    rw [hfc]

/- ================================================================
   C7: Risk Gate frame property
   ================================================================ -/

/-- C7: a `check_order` call changes the risk state only by the automatic
stale-day reset — its post-state is exactly `check_and_reset_daily`, which
is the identity on a current-day state, zeroes the three daily counters on
a stale-day state, and never touches the trade ledger; the counters are
incremented and the ledger appended only by `update_daily_stats`. -/
theorem risk_gate_frame :
    ∀ (st : RiskState) (today : Nat) (o : Order) (a : Option Account)
      (p : Option (List Position)),
      (RiskManager.check_order st today o a p).1 = RiskManager.check_and_reset_daily st today
      ∧ (RiskManager.check_and_reset_daily st today).trade_history = st.trade_history
      ∧ (today = st.last_reset_date → RiskManager.check_and_reset_daily st today = st)
      ∧ (today ≠ st.last_reset_date →
          RiskManager.check_and_reset_daily st today =
            { st with daily_trades := 0, daily_buy_amount := 0, daily_sell_amount := 0,
                      last_reset_date := today })
      ∧ (RiskManager.update_daily_stats st today o).daily_trades
          = (RiskManager.check_and_reset_daily st today).daily_trades + 1
      ∧ (RiskManager.update_daily_stats st today o).trade_history
          = (RiskManager.check_and_reset_daily st today).trade_history
            ++ [{ stock_code := o.stock_code, direction := o.direction,
                  amount := o.price * o.qty }] := by
  intro st today o a p
  refine ⟨?_, ?_, ?_, ?_, rfl, rfl⟩
  · simp only [RiskManager.check_order]
    repeat' split
    all_goals rfl
  · unfold RiskManager.check_and_reset_daily
    split <;> rfl
  · intro h
    unfold RiskManager.check_and_reset_daily
    rw [if_neg (not_not_intro h)]
  · intro h
    unfold RiskManager.check_and_reset_daily
    rw [if_pos h]

/- ================================================================
   C10: rules are skipped when account/positions are absent
   ================================================================ -/

/-- C10 (amended): with no account info, a BUY is checked against no funds
or exposure rule at all — it is accepted whenever its notional is within
the per-order cap *and* the daily trade count is below its cap (the claim's
"any notional within the cap" omits that second, still-active rule); with
no positions list, a SELL is checked against no holding rule and is
likewise accepted under the same two caps. -/
theorem risk_gate_skips_rules_without_account_or_positions :
    ∀ (st : RiskState) (today : Nat) (sc : List Char) (price qty : ℚ)
      (a : Option Account) (p : Option (List Position)),
      (price * qty ≤
          (if startsWithHKDot sc then
            (RiskManager.check_and_reset_daily st today).max_single_amount_hk
          else (RiskManager.check_and_reset_daily st today).max_single_amount) →
        (RiskManager.check_and_reset_daily st today).daily_trades <
          (RiskManager.check_and_reset_daily st today).max_daily_trades →
        RiskManager.check_order st today
            { stock_code := sc, direction := Direction.BUY, price := price, qty := qty }
            none p =
          (RiskManager.check_and_reset_daily st today, true, RiskReason.pass))
      ∧ (price * qty ≤
          (if startsWithHKDot sc then
            (RiskManager.check_and_reset_daily st today).max_single_amount_hk
          else (RiskManager.check_and_reset_daily st today).max_single_amount) →
        (RiskManager.check_and_reset_daily st today).daily_trades <
          (RiskManager.check_and_reset_daily st today).max_daily_trades →
        RiskManager.check_order st today
            { stock_code := sc, direction := Direction.SELL, price := price, qty := qty }
            a none =
          (RiskManager.check_and_reset_daily st today, true, RiskReason.pass)) := by
  intro st today sc price qty a p
  constructor
  · intro hcap htr
    simp only [RiskManager.check_order]
    rw [if_neg (not_lt.2 hcap), if_neg (not_le.2 htr)]
    cases p <;> rfl
  · intro hcap htr
    simp only [RiskManager.check_order]
    rw [if_neg (not_lt.2 hcap), if_neg (not_le.2 htr)]
    cases a <;> rfl

/- ================================================================
   C5: Position Sizer boundedness
   ================================================================ -/

/-- C5: for every signal strength and every statistics state, the returned
capital fraction lies in `[min_position, max_position]` (whenever that
interval is nonempty), and whenever the computed Kelly fraction
`(p*b - q)/b` is negative — the degenerate `avg_loss ≤ 0` case included —
the returned fraction is `0` (for any configuration whose clamp interval
contains `0`, as the default `[0, 1]` does). -/
theorem sizer_bounded_and_zero_on_negative_kelly :
    ∀ (k : KellyState) (s : ℚ) (adj : Bool),
      (k.min_position ≤ k.max_position →
        k.min_position ≤ KellyCalculator.calculate_position k s adj
        ∧ KellyCalculator.calculate_position k s adj ≤ k.max_position)
      ∧ ((k.avg_loss ≤ 0 ∨
            ((if adj then KellyCalculator.adjust_win_rate k s else k.win_rate)
                * (k.avg_win / k.avg_loss)
              - (1 - (if adj then KellyCalculator.adjust_win_rate k s else k.win_rate)))
              / (k.avg_win / k.avg_loss) < 0) →
          k.min_position ≤ 0 → 0 ≤ k.max_position →
          KellyCalculator.calculate_position k s adj = 0) := by
  intro k s adj
  constructor
  · intro hle
    unfold KellyCalculator.calculate_position npClip
    exact ⟨le_min (le_max_right _ _) hle, min_le_right _ _⟩
  · intro hneg hlo hhi
    have hkf : KellyCalculator.kelly_formula
        (if adj then KellyCalculator.adjust_win_rate k s else k.win_rate)
        k.avg_win k.avg_loss = 0 := by
      unfold KellyCalculator.kelly_formula
      rcases hneg with h | h
      · rw [if_pos h]
      · by_cases h0 : k.avg_loss ≤ 0
        · rw [if_pos h0]
        · rw [if_neg h0]
          exact max_eq_left (le_of_lt h)
    simp only [KellyCalculator.calculate_position]
    rw [hkf, zero_mul]
    unfold npClip
    rw [max_eq_left hlo, min_eq_left hhi]

/- ================================================================
   C6: Data Router failure mode
   ================================================================ -/

/-- C6 counterexample: with every adapter unavailable and an empty cache,
the fetch for `TSLA` and the fetch for `MSFT` both return the bare `None` —
an untyped null rather than a typed `DataError` value, and one that names
neither the market nor the ticker (the two failures are
indistinguishable). -/
theorem dm_failure_returns_untyped_none :
    (DataManager.get_kline_data noAdapterDM tkTSLA day20 day22 false).2 = none
    ∧ (DataManager.get_kline_data noAdapterDM tkMSFT day20 day22 false).2 = none := by
  constructor <;> decide

/-- C6 (amended): the router never substitutes another market's data — any
result of a series fetch is either the untyped failure `none` (adapter
unavailable, adapter fetch failed, or no data), the cached entry for the
canonical ticker, or exactly what the adapter of the ticker's *classified*
market returned for the canonical ticker; the failure value itself is a
bare `none`, not a typed error naming market and ticker. -/
theorem dm_routing_never_crosses_markets :
    ∀ (dm : DataManagerState) (code s e : List Char) (force : Bool),
      (DataManager.get_kline_data dm code s e force).2 = none
      ∨ (∃ df, DataCache.load dm.cache (formatStockCode code) s e = some df
          ∧ (DataManager.get_kline_data dm code s e force).2 = some df)
      ∨ (∃ fetch df,
          adapterFor dm (get_market_type (formatStockCode code)) = some fetch
          ∧ fetch (formatStockCode code) s e = some df
          ∧ (DataManager.get_kline_data dm code s e force).2 = some df) := by
  intro dm code s e force
  simp only [DataManager.get_kline_data]
  split
  · rename_i df heq
    refine Or.inr (Or.inl ⟨df, ?_, rfl⟩)
    split at heq
    · exact heq
    · exact absurd heq (by simp)
  · split
    · exact Or.inl rfl
    · rename_i fetch hfetch
      split
      · exact Or.inl rfl
      · rename_i df hdf
        exact Or.inr (Or.inr ⟨fetch, df, hfetch, hdf, rfl⟩)

/- ================================================================
   C8: Strategy determinism and minimum-data policy
   ================================================================ -/

/-- C8: the MACD and RSI strategies are pure functions of their parameters
and the close series — equal inputs give equal signals — and on any series
shorter than the strategy's minimum window (`slow_period + signal_period`
bars for MACD, `period + 1` bars for RSI) they return nothing rather than a
partial signal. -/
theorem strategy_deterministic_min_data :
    ∀ (pm pm2 : MACDParams) (pr pr2 : RSIParams) (c c2 : List ℚ),
      (c.length < pm.slow_period + pm.signal_period → MACDStrategy.analyze pm c = none)
      ∧ (c.length < pr.period + 1 → RSIStrategy.analyze pr c = none)
      ∧ (pm = pm2 → c = c2 → MACDStrategy.analyze pm c = MACDStrategy.analyze pm2 c2)
      ∧ (pr = pr2 → c = c2 → RSIStrategy.analyze pr c = RSIStrategy.analyze pr2 c2) := by
  intro pm pm2 pr pr2 c c2
  refine ⟨?_, ?_, ?_, ?_⟩
  · intro h
    unfold MACDStrategy.analyze
    rw [if_pos h]
  · intro h
    unfold RSIStrategy.analyze
    rw [if_pos h]
  · rintro rfl rfl
    rfl
  · rintro rfl rfl
    rfl

/- ================================================================
   C9: Scheduler job lifecycle
   ================================================================ -/

section ConcreteScheduler

/-- C9 counterexample: after adding the daily-signal task `sig` and
disabling it, the `enabled` flag is indeed cleared in the task table, yet
the scheduled firing still executes the job body (`run_pending` runs it);
removing the task entirely also leaves the scheduled firing executing the
body, because the `schedule`-library entry is never cancelled. -/
theorem scheduler_disabled_signal_job_still_runs :
    TaskScheduler.lookupTask disabledSignalSched ['s','i','g']
        = some { ttype := TaskType.signal, enabled := false }
    ∧ TaskScheduler.run_pending disabledSignalSched = [JobOutcome.ran]
    ∧ TaskScheduler.lookupTask removedSignalSched ['s','i','g'] = none
    ∧ TaskScheduler.run_pending removedSignalSched = [JobOutcome.ran] := by
  refine ⟨?_, ?_, ?_, ?_⟩ <;> decide

end ConcreteScheduler

/-- The task table after a removal never resolves the removed name. -/
theorem lookupTask_remove (st : SchedulerState) (name : List Char) :
    TaskScheduler.lookupTask (TaskScheduler.remove_task st name) name = none := by
  unfold TaskScheduler.remove_task
  split
  · unfold TaskScheduler.lookupTask
    cases hfind : (st.tasks.filter (fun kv => kv.1 ≠ name)).find?
        (fun kv => kv.1 = name) with
    | none => rfl
    | some kv =>
      exfalso
      have hp : kv.1 = name := by simpa using List.find?_some hfind
      have hmem := List.mem_of_find?_eq_some hfind
      have hne : kv.1 ≠ name := by simpa using (List.mem_filter.1 hmem).2
      exact hne hp
  · rename_i hnone
    have hfind : st.tasks.find? (fun kv => kv.1 = name) = none := by
      rcases h : st.tasks.find? (fun kv => kv.1 = name) with _ | kv
      · exact h
      · exact absurd (by rw [h]; rfl) hnone
    unfold TaskScheduler.lookupTask
    rw [hfind]
    rfl

/-- The task table resolves a freshly set name to the new record. -/
theorem lookupTask_set (st : SchedulerState) (name : List Char) (info : TaskInfo) :
    TaskScheduler.lookupTask
        { st with tasks := TaskScheduler.setTask st.tasks name info } name = some info := by
  unfold TaskScheduler.lookupTask TaskScheduler.setTask
  rw [List.find?_cons_of_pos _ (by simp)]
  rfl

/-- Firing a trade-job closure consults the current task table. -/
theorem fireJob_trade (st : SchedulerState) (name : List Char) :
    TaskScheduler.fireJob st (name, TaskType.trade)
      = match TaskScheduler.lookupTask st name with
        | none => JobOutcome.keyError
        | some info => if info.enabled then JobOutcome.ran else JobOutcome.skipped := rfl

/-- C9 (amended): the disable/remove operations govern only what the job
*closures* consult: an auto-trade job's closure re-reads its task's
`enabled` flag, so after `disable_task` its scheduled firing skips the body,
and after `remove_task` its firing hits a missing key (`KeyError`) instead
of running the body; a daily-signal (or custom) job's closure never reads
the flag, so its body executes on every firing regardless of disabling, and
neither `disable_task` nor `remove_task` cancels the `schedule`-library
entry, which stays registered and continues to fire. -/
theorem scheduler_lifecycle_amended :
    ∀ (st : SchedulerState) (name : List Char),
      ((TaskScheduler.lookupTask st name).isSome = true →
        TaskScheduler.fireJob (TaskScheduler.disable_task st name) (name, TaskType.trade)
          = JobOutcome.skipped)
      ∧ TaskScheduler.fireJob (TaskScheduler.remove_task st name) (name, TaskType.trade)
          = JobOutcome.keyError
      ∧ TaskScheduler.fireJob st (name, TaskType.signal) = JobOutcome.ran
      ∧ TaskScheduler.fireJob st (name, TaskType.custom) = JobOutcome.ran
      ∧ (TaskScheduler.disable_task st name).scheduled_jobs = st.scheduled_jobs
      ∧ (TaskScheduler.remove_task st name).scheduled_jobs = st.scheduled_jobs := by
  intro st name
  refine ⟨?_, ?_, rfl, rfl, ?_, ?_⟩
  · intro hsome
    rcases Option.isSome_iff_exists.1 hsome with ⟨info, hinfo⟩
    have hdis : TaskScheduler.disable_task st name
        = { st with
            tasks := TaskScheduler.setTask st.tasks name ({ info with enabled := false }) } := by
      unfold TaskScheduler.disable_task
      rw [hinfo]
    rw [fireJob_trade, hdis, lookupTask_set]
    rfl
  · rw [fireJob_trade, lookupTask_remove]
  · unfold TaskScheduler.disable_task
    cases TaskScheduler.lookupTask st name <;> rfl
  · unfold TaskScheduler.remove_task
    split <;> rfl
